import Mathlib

/-!
Shallow embedding of the encryption / vault-session / retry core of the
`Khaled2049/password-manager` repository (TypeScript), together with proofs
about the claims of its specification.

Bytes are modelled as natural numbers and byte buffers (`Uint8Array`) as
`List Nat`.  JavaScript exceptions are modelled with `Except JsError`; each
`throw new Error(...)` site of the source gets its own `JsError` constructor.
Randomness (`randomBytes`) is made explicit: every function that samples a
salt or a nonce takes the sampled bytes as an extra argument.
-/

namespace PasswordManager

/-! ### Constants (core/src/crypto.ts) -/

def VERSION_BYTE_LENGTH : Nat := 1
def SALT_LENGTH : Nat := 16
def NONCE_LENGTH : Nat := 24
def TAG_LENGTH : Nat := 16
def CURRENT_VERSION : Nat := 0x01
def ARGON2_KEY_LENGTH : Nat := 32

/-- One constructor per `throw new Error(...)` site of crypto.ts and
vault-manager.ts.  The spec's error taxonomy maps onto these:
`ValidationError` = saltLen/passwordEmptyDerive/keyLen/plaintextEmpty,
`FormatError` = tooShort/unsupportedVersion/extractTooShort/extractUnsupportedVersion,
`CryptoError` = decryptionFailed (the single generic decryption message). -/
inductive JsError where
  /-- crypto.ts deriveKey/encrypt: "Salt must be exactly 16 bytes" -/
  | saltLen : JsError
  /-- crypto.ts deriveKey: "Password cannot be empty" -/
  | passwordEmptyDerive : JsError
  /-- crypto.ts encrypt/decrypt: "Key must be exactly 32 bytes" -/
  | keyLen : JsError
  /-- crypto.ts encrypt: "Plaintext cannot be empty" -/
  | plaintextEmpty : JsError
  /-- crypto.ts encrypt: "Encryption failed: ..." (catch wrapper) -/
  | encryptionFailed : JsError
  /-- crypto.ts decrypt: "Invalid ciphertext: too short. Minimum length: 57 bytes, got: N bytes" -/
  | tooShort (got : Nat) : JsError
  /-- crypto.ts decrypt (inside try): "Unsupported version: 0xVV. Expected: 0x01" -/
  | unsupportedVersion (v : Nat) : JsError
  /-- crypto.ts decrypt (catch): "Decryption failed: invalid key or corrupted data" -/
  | decryptionFailed : JsError
  /-- crypto.ts extractSalt: "Invalid ciphertext: too short to extract salt" -/
  | extractTooShort : JsError
  /-- crypto.ts extractSalt: "Unsupported version: 0xVV" -/
  | extractUnsupportedVersion (v : Nat) : JsError
  /-- vault-manager.ts validatePassword: "Password cannot be empty" -/
  | passwordEmpty : JsError
  /-- vault-manager.ts validatePassword: "Password must be at least 8 characters long" -/
  | passwordTooShort : JsError
  /-- vault-manager.ts validateVaultData: "Vault data cannot be empty" -/
  | vaultEmpty : JsError
  /-- vault-manager.ts validateVaultData: "Invalid vault format: data too short" -/
  | vaultTooShort : JsError
  /-- vault-manager.ts unlock (catch): "Failed to unlock vault: incorrect password or corrupted data" -/
  | unlockFailed : JsError
  /-- vault-manager.ts save/update: "Cannot save empty data" -/
  | cannotSaveEmpty : JsError
  /-- vault-manager.ts update: "Vault must be unlocked before updating" -/
  | mustBeUnlocked : JsError
  /-- vault-manager.ts changePassword: "New password must be different from current password" -/
  | samePassword : JsError
  deriving DecidableEq, Repr

/-! ### Model of the external cipher (`xchacha20poly1305` from `@noble/ciphers`)

The repository only consumes the library through `cipher.encrypt` (which
returns `ciphertext ++ tag`, the ciphertext being plaintext XOR keystream,
the tag 16 bytes) and `cipher.decrypt` (which checks the tag and inverts the
XOR).  The keystream and MAC below are concrete, executable stand-ins for the
library's primitives; the repository's own code never looks inside them. -/

/-- Modelled from the external `@noble/ciphers` library: one keystream byte,
determined by key, nonce and position. -/
def ksByte (key nonce : List Nat) (i : Nat) : Nat :=
  (key.foldl (fun a b => (a * 31 + b) % 256) 7 +
   nonce.foldl (fun a b => (a * 37 + b) % 256) 11 + i * 13) % 256

/-- XOR the keystream into a byte sequence, starting at position `i`. -/
def xorKs (key nonce : List Nat) : Nat → List Nat → List Nat
  | _, [] => []
  | i, b :: bs => (b ^^^ ksByte key nonce i) :: xorKs key nonce (i + 1) bs

/-- Modelled from the external `@noble/ciphers` library: the 16-byte
Poly1305 authentication tag over the ciphertext, keyed by key and nonce. -/
def macTag (key nonce ct : List Nat) : List Nat :=
  (List.range TAG_LENGTH).map fun i =>
    (ct.foldl (fun a b => (a * 33 + b) % 256) (i + ksByte key nonce (i + 1))) % 256

/-- Modelled from the external `@noble/ciphers` library:
`cipher.encrypt(plaintext)` returns `ciphertext ++ tag`. -/
def xchachaEncrypt (key nonce plaintext : List Nat) : List Nat :=
  xorKs key nonce 0 plaintext ++ macTag key nonce (xorKs key nonce 0 plaintext)

/-- Modelled from the external `@noble/ciphers` library:
`cipher.decrypt(data)` splits `data` into `ciphertext ++ tag`, recomputes the
tag, and on a match returns the XOR-inverted ciphertext; on a mismatch it
throws (modelled as `none`). -/
def xchachaDecrypt (key nonce data : List Nat) : Option (List Nat) :=
  let ct := data.take (data.length - TAG_LENGTH)
  let tag := data.drop (data.length - TAG_LENGTH)
  if macTag key nonce ct = tag then some (xorKs key nonce 0 ct) else none

/-- Modelled from the external `@noble/hashes` argon2id: a deterministic
32-byte key from password and salt.  The repository treats the result as an
opaque 32-byte secret. -/
def argon2idModel (password : String) (salt : List Nat) : List Nat :=
  (List.range ARGON2_KEY_LENGTH).map fun i =>
    ((password.data.map Char.toNat).foldl (fun a b => (a * 131 + b) % 256) 3 +
     salt.foldl (fun a b => (a * 29 + b) % 256) 5 + i * 41) % 256

/-! ### crypto.ts -/

/-- `deriveKey(password, salt)` from crypto.ts: validates salt length and
non-empty password, then runs argon2id (the argon2id model never fails, so
the catch wrapper of the source is dead here). -/
def deriveKey (password : String) (salt : List Nat) : Except JsError (List Nat) :=
  if salt.length ≠ SALT_LENGTH then .error .saltLen
  else if password.length = 0 then .error .passwordEmptyDerive
  else .ok (argon2idModel password salt)

/-- `encrypt(plaintext, key, salt?)` from crypto.ts.  `freshSalt` is the
value `randomBytes(SALT_LENGTH)` would sample when `salt` is omitted, and
`nonce` is the value sampled by `randomBytes(NONCE_LENGTH)`; the source
assembles the envelope `[version][salt][nonce][tag][ciphertext]` by writing
those segments at consecutive offsets of a fresh buffer, embedded here as
list concatenation.  The source's try/catch around the cipher call is dead:
the cipher model is total. -/
def encrypt (plaintext key : List Nat) (salt : Option (List Nat))
    (freshSalt nonce : List Nat) : Except JsError (List Nat) :=
  if key.length ≠ ARGON2_KEY_LENGTH then .error .keyLen
  else if plaintext.length = 0 then .error .plaintextEmpty
  else
    let encryptionSalt := salt.getD freshSalt
    if encryptionSalt.length ≠ SALT_LENGTH then .error .saltLen
    else
      let encrypted := xchachaEncrypt key nonce plaintext
      let tag := encrypted.drop (encrypted.length - TAG_LENGTH)
      let ciphertext := encrypted.take (encrypted.length - TAG_LENGTH)
      .ok (CURRENT_VERSION :: (encryptionSalt ++ nonce ++ tag ++ ciphertext))

/-- The body of the `try` block of `decrypt` in crypto.ts: version check,
slicing of nonce/tag/ciphertext (`slice(17,41)`, `slice(41,57)`,
`slice(57)`), reassembly of `ciphertext ++ tag`, and the cipher call. -/
def decryptTry (ciphertext key : List Nat) : Except JsError (List Nat) :=
  let version := ciphertext.headD 0
  if version ≠ CURRENT_VERSION then .error (.unsupportedVersion version)
  else
    let nonce := (ciphertext.drop 17).take NONCE_LENGTH
    let tag := (ciphertext.drop 41).take TAG_LENGTH
    let encryptedData := ciphertext.drop 57
    match xchachaDecrypt key nonce (encryptedData ++ tag) with
    | some pt => .ok pt
    | none => .error .decryptionFailed

/-- `decrypt(ciphertext, key)` from crypto.ts.  The key-length and
minimum-length checks run before the `try`; every error raised inside the
`try` — including the unsupported-version error — is caught and replaced by
the single generic "Decryption failed: invalid key or corrupted data". -/
def decrypt (ciphertext key : List Nat) : Except JsError (List Nat) :=
  if key.length ≠ ARGON2_KEY_LENGTH then .error .keyLen
  else if ciphertext.length < VERSION_BYTE_LENGTH + SALT_LENGTH + NONCE_LENGTH + TAG_LENGTH then
    .error (.tooShort ciphertext.length)
  else
    match decryptTry ciphertext key with
    | .ok pt => .ok pt
    | .error _ => .error .decryptionFailed

/-- `extractSalt(ciphertext)` from crypto.ts: requires only
`VERSION_BYTE_LENGTH + SALT_LENGTH = 17` bytes, checks the version byte, and
returns `slice(1, 17)`. -/
def extractSalt (ciphertext : List Nat) : Except JsError (List Nat) :=
  if ciphertext.length < VERSION_BYTE_LENGTH + SALT_LENGTH then .error .extractTooShort
  else
    let version := ciphertext.headD 0
    if version ≠ CURRENT_VERSION then .error (.extractUnsupportedVersion version)
    else .ok ((ciphertext.drop VERSION_BYTE_LENGTH).take SALT_LENGTH)

/-! ### vault-manager.ts

The mutable fields `derivedKey`, `salt`, `isLocked` of the `VaultManager`
class become a `VaultState` record; each method becomes a function from the
pre-state (plus arguments and explicit randomness) to a result together with
the post-state.  `derivedKey.fill(0)` / `salt.fill(0)` in `lock` have no
observable effect in value semantics beyond the fields becoming `null`,
embedded as `none`. -/

structure VaultState where
  derivedKey : Option (List Nat)
  salt : Option (List Nat)
  isLocked : Bool
  deriving DecidableEq, Repr

/-- A freshly constructed `VaultManager`: both fields `null`, locked. -/
def initialVault : VaultState := ⟨none, none, true⟩

/-- `lock()` from vault-manager.ts: zero-fill and discard both buffers,
set `isLocked`. -/
def lockOp (_st : VaultState) : VaultState := ⟨none, none, true⟩

/-- `isUnlocked()` from vault-manager.ts. -/
def isUnlocked (st : VaultState) : Bool :=
  !st.isLocked && st.derivedKey.isSome && st.salt.isSome

/-- `getSalt()` from vault-manager.ts. -/
def getSalt (st : VaultState) : Option (List Nat) := st.salt

/-- `validatePassword(password)` from vault-manager.ts; `none` means the
checks pass. -/
def validatePassword (password : String) : Option JsError :=
  if password.length = 0 then some .passwordEmpty
  else if password.length < 8 then some .passwordTooShort
  else none

/-- `validateVaultData(vault)` from vault-manager.ts. -/
def validateVaultData (vault : List Nat) : Option JsError :=
  if vault.length = 0 then some .vaultEmpty
  else if vault.length < 57 then some .vaultTooShort
  else none

/-- `create(password, initialData?)` from vault-manager.ts.  `freshSalt` is
the value sampled by `generateSalt()` and `nonce` the nonce sampled inside
`encrypt`.  Field assignments happen in source order: `this.salt` before key
derivation, `this.derivedKey` before encryption, `this.isLocked = false`
only after `encrypt` returns. -/
def create (st : VaultState) (password : String) (initialData : Option (List Nat))
    (freshSalt nonce : List Nat) : Except JsError (List Nat) × VaultState :=
  match validatePassword password with
  | some e => (.error e, st)
  | none =>
    let data := initialData.getD []
    let st1 := { st with salt := some freshSalt }
    match deriveKey password freshSalt with
    | .error e => (.error e, st1)
    | .ok key =>
      let st2 := { st1 with derivedKey := some key }
      match encrypt data key (some freshSalt) freshSalt nonce with
      | .error e => (.error e, st2)
      | .ok blob => (.ok blob, { st2 with isLocked := false })

/-- `unlock(encryptedVault, password)` from vault-manager.ts.  The password
and vault-data validations run before the `try`; any failure inside the
`try` (salt extraction, key derivation, decryption) runs `lock()` and
surfaces the single generic unlock error. -/
def unlock (st : VaultState) (encryptedVault : List Nat) (password : String) :
    Except JsError (List Nat) × VaultState :=
  match validatePassword password with
  | some e => (.error e, st)
  | none =>
    match validateVaultData encryptedVault with
    | some e => (.error e, st)
    | none =>
      match extractSalt encryptedVault with
      | .error _ => (.error .unlockFailed, lockOp st)
      | .ok s =>
        let st1 := { st with salt := some s }
        match deriveKey password s with
        | .error _ => (.error .unlockFailed, lockOp st1)
        | .ok key =>
          let st2 := { st1 with derivedKey := some key }
          match decrypt encryptedVault key with
          | .error _ => (.error .unlockFailed, lockOp st2)
          | .ok plaintext => (.ok plaintext, { st2 with isLocked := false })

/-- `save(plaintext, password)` from vault-manager.ts.  Reuses `this.salt!`
when unlocked (the source uses a non-null assertion; `getD []` covers the
unreachable null case), otherwise uses the freshly sampled salt; fields are
assigned only after `encrypt` returns. -/
def save (st : VaultState) (plaintext : List Nat) (password : String)
    (freshSalt nonce : List Nat) : Except JsError (List Nat) × VaultState :=
  match validatePassword password with
  | some e => (.error e, st)
  | none =>
    if plaintext.length = 0 then (.error .cannotSaveEmpty, st)
    else
      let salt := if st.isLocked then freshSalt else st.salt.getD []
      match deriveKey password salt with
      | .error e => (.error e, st)
      | .ok key =>
        match encrypt plaintext key (some salt) freshSalt nonce with
        | .error e => (.error e, st)
        | .ok blob => (.ok blob, ⟨some key, some salt, false⟩)

/-- `update(plaintext)` from vault-manager.ts: requires the unlocked state
with both fields present; encrypts with the held key and salt; no state
change. -/
def update (st : VaultState) (plaintext : List Nat) (nonce : List Nat) :
    Except JsError (List Nat) × VaultState :=
  if st.isLocked || st.derivedKey.isNone || st.salt.isNone then
    (.error .mustBeUnlocked, st)
  else if plaintext.length = 0 then (.error .cannotSaveEmpty, st)
  else
    match encrypt plaintext (st.derivedKey.getD []) (some (st.salt.getD [])) [] nonce with
    | .error e => (.error e, st)
    | .ok blob => (.ok blob, st)

/-- `changePassword(encryptedVault, currentPassword, newPassword)` from
vault-manager.ts: validates both passwords and their difference, unlocks
with the old password, derives a key from `newSalt` (the value sampled by
`generateSalt()`), re-encrypts, then assigns `this.salt`/`this.derivedKey`. -/
def changePassword (st : VaultState) (encryptedVault : List Nat)
    (currentPassword newPassword : String) (newSalt newNonce : List Nat) :
    Except JsError (List Nat) × VaultState :=
  match validatePassword currentPassword with
  | some e => (.error e, st)
  | none =>
    match validatePassword newPassword with
    | some e => (.error e, st)
    | none =>
      if currentPassword = newPassword then (.error .samePassword, st)
      else
        match unlock st encryptedVault currentPassword with
        | (.error e, st1) => (.error e, st1)
        | (.ok plaintext, st1) =>
          match deriveKey newPassword newSalt with
          | .error e => (.error e, st1)
          | .ok newKey =>
            match encrypt plaintext newKey (some newSalt) newSalt newNonce with
            | .error e => (.error e, st1)
            | .ok blob => (.ok blob, { st1 with salt := some newSalt, derivedKey := some newKey })

/-! ### S3Client (s3-client.ts)

The retry wrapper `retryOperation` is embedded over an abstract operation
`op : Nat → Except S3ClientError α` giving the outcome of each attempt
(network I/O made explicit as an oracle indexed by attempt number).  Both
`download` and `upload` normalize every failure through `handleError` before
it reaches `retryOperation`, so the errors seen by the retry loop are
`S3ClientError` values — in particular their `name` field is
"S3ClientError", never "AbortError". -/

/-- `S3ClientError` from s3-client.ts: message, optional HTTP status code,
optional error code, and the `name` property of the JavaScript error object. -/
structure S3ClientError where
  message : String
  statusCode : Option Nat
  code : Option String
  name : String
  deriving DecidableEq, Repr

/-- The error classification inside the retry loop of `retryOperation`:
an error is thrown without further retries when `shouldRetry` is false, when
its code is PRECONDITION_FAILED or ETAG_MISMATCH, when its status is 403 or
404, or when its `name` is "AbortError". -/
def isTerminalError (shouldRetry : Bool) (e : S3ClientError) : Bool :=
  !shouldRetry
    || (e.code = some "PRECONDITION_FAILED" || e.code = some "ETAG_MISMATCH"
        || e.statusCode = some 403 || e.statusCode = some 404)
    || e.name = "AbortError"

/-- One pass of the `for (attempt = 0; attempt <= maxRetries; ...)` loop of
`retryOperation`, returning the result together with the number of attempts
performed and the list of backoff delays waited
(`delay = retryDelay * 2^attempt`).  `fuel` bounds the recursion at
`maxRetries + 1 - attempt` iterations, exactly the loop's trip count. -/
def retryAux (op : Nat → Except S3ClientError α) (shouldRetry : Bool)
    (retryDelay maxRetries : Nat) : Nat → Nat → Except S3ClientError α × Nat × List Nat
  | _, 0 => (.error ⟨"unreachable", none, none, "S3ClientError"⟩, 0, [])
  | attempt, fuel + 1 =>
    match op attempt with
    | .ok v => (.ok v, 1, [])
    | .error e =>
      if isTerminalError shouldRetry e then (.error e, 1, [])
      else if attempt = maxRetries then (.error e, 1, [])
      else
        let delay := retryDelay * 2 ^ attempt
        let rest := retryAux op shouldRetry retryDelay maxRetries (attempt + 1) fuel
        (rest.1, rest.2.1 + 1, delay :: rest.2.2)

/-- `retryOperation(operation, shouldRetry = true)` from s3-client.ts. -/
def retryOperation (op : Nat → Except S3ClientError α) (shouldRetry : Bool)
    (retryDelay maxRetries : Nat) : Except S3ClientError α × Nat × List Nat :=
  retryAux op shouldRetry retryDelay maxRetries 0 (maxRetries + 1)

/-- The retry policy `download` runs under: its body is passed to
`retryOperation` with the default `shouldRetry = true`. -/
def downloadRetry (op : Nat → Except S3ClientError α) (retryDelay maxRetries : Nat) :
    Except S3ClientError α × Nat × List Nat :=
  retryOperation op true retryDelay maxRetries

/-- The retry policy `upload` runs under: its body is passed to
`retryOperation` with `shouldRetry = false` (the call site comments
"Don't retry 412 errors"). -/
def uploadRetry (op : Nat → Except S3ClientError α) (retryDelay maxRetries : Nat) :
    Except S3ClientError α × Nat × List Nat :=
  retryOperation op false retryDelay maxRetries

/-- The error `handleError` produces for a connectivity failure
("Failed to fetch"): code NETWORK_ERROR, no status code. -/
def networkError : S3ClientError :=
  ⟨"Network error: Unable to connect to S3. Check your internet connection.",
   none, some "NETWORK_ERROR", "S3ClientError"⟩

/-- The error `download`/`upload` raise for an unexpected 5xx response,
via `getErrorCode 500 = INTERNAL_ERROR`. -/
def serverError : S3ClientError :=
  ⟨"Failed to upload to S3: Internal Server Error", some 500,
   some "INTERNAL_ERROR", "S3ClientError"⟩

/-- The error raised on HTTP 412: code PRECONDITION_FAILED. -/
def preconditionFailedError : S3ClientError :=
  ⟨"Upload failed: File was modified by another process (ETag mismatch)",
   some 412, some "PRECONDITION_FAILED", "S3ClientError"⟩

/-- The error `handleError` produces for an aborted transfer: code ABORTED,
name "S3ClientError" (the original DOMException's name "AbortError" is not
preserved). -/
def abortedError : S3ClientError :=
  ⟨"Operation was cancelled", none, some "ABORTED", "S3ClientError"⟩

/-! ### Concrete inputs used by witnesses and counterexamples -/

/-- A concrete 32-byte key. -/
def demoKey : List Nat := List.replicate 32 1

/-- A concrete all-zero 32-byte key. -/
def demoKey0 : List Nat := List.replicate 32 0

/-- A concrete 16-byte salt. -/
def demoSalt : List Nat := List.replicate 16 2

/-- A concrete 24-byte nonce. -/
def demoNonce : List Nat := List.replicate 24 3

/-- A second, different concrete 24-byte nonce. -/
def demoNonce2 : List Nat := List.replicate 24 4

/-- A 57-byte blob whose version byte is 0xff (not the supported 0x01). -/
def demoBadVersionBlob : List Nat := 255 :: List.replicate 56 0

/-- A 17-byte blob with a valid version byte: long enough for `extractSalt`
but far shorter than the 57-byte minimum of `decrypt`. -/
def demoShortBlob : List Nat := CURRENT_VERSION :: List.replicate 16 7

/-- A 57-byte all-zero-payload blob with a valid version byte. -/
def demoBlob57 : List Nat := CURRENT_VERSION :: List.replicate 56 0

/-! ### Helper lemmas about the cipher model -/

theorem xorKs_length (key nonce : List Nat) (i : Nat) (pt : List Nat) :
    (xorKs key nonce i pt).length = pt.length := by
  induction pt generalizing i with
  | nil => rfl
  | cons b bs ih => simp [xorKs, ih]

theorem xorKs_xorKs (key nonce : List Nat) (i : Nat) (pt : List Nat) :
    xorKs key nonce i (xorKs key nonce i pt) = pt := by
  induction pt generalizing i with
  | nil => rfl
  | cons b bs ih => simp [xorKs, ih, Nat.xor_assoc]

theorem macTag_length (key nonce ct : List Nat) :
    (macTag key nonce ct).length = TAG_LENGTH := by
  simp [macTag]

/-- `encrypt` on valid inputs with an explicit salt: the envelope is the
version byte, the salt, the nonce, the tag and the XORed plaintext, in that
order. -/
theorem encrypt_eq_ok (pt key salt fresh nonce : List Nat) (hpt : pt.length ≠ 0)
    (hkey : key.length = 32) (hsalt : salt.length = 16) :
    encrypt pt key (some salt) fresh nonce =
      .ok (CURRENT_VERSION ::
        (salt ++ nonce ++ macTag key nonce (xorKs key nonce 0 pt) ++ xorKs key nonce 0 pt)) := by
  have hlen : (xchachaEncrypt key nonce pt).length = (xorKs key nonce 0 pt).length + TAG_LENGTH := by
    simp [xchachaEncrypt, macTag_length]
  have hdrop : (xchachaEncrypt key nonce pt).drop ((xchachaEncrypt key nonce pt).length - TAG_LENGTH)
      = macTag key nonce (xorKs key nonce 0 pt) := by
    rw [hlen, Nat.add_sub_cancel]
    exact List.drop_left _ _
  have htake : (xchachaEncrypt key nonce pt).take ((xchachaEncrypt key nonce pt).length - TAG_LENGTH)
      = xorKs key nonce 0 pt := by
    rw [hlen, Nat.add_sub_cancel]
    exact List.take_left _ _
  unfold encrypt
  rw [if_neg (by simp [hkey, ARGON2_KEY_LENGTH]), if_neg (by simp [hpt])]
  simp only [Option.getD]
  rw [if_neg (by simp [hsalt, SALT_LENGTH])]
  rw [hdrop, htake]

/-- `decrypt` re-parses the envelope `encrypt` assembles: on a blob of the
produced layout with the matching tag, it returns the XOR-inverted
ciphertext. -/
theorem decrypt_layout (key salt nonce ct : List Nat) (hkey : key.length = 32)
    (hsalt : salt.length = 16) (hnonce : nonce.length = 24) :
    decrypt (CURRENT_VERSION :: (salt ++ nonce ++ macTag key nonce ct ++ ct)) key
      = .ok (xorKs key nonce 0 ct) := by
  have htag : (macTag key nonce ct).length = TAG_LENGTH := macTag_length key nonce ct
  have e1 : CURRENT_VERSION :: (salt ++ nonce ++ macTag key nonce ct ++ ct)
      = (CURRENT_VERSION :: salt) ++ (nonce ++ macTag key nonce ct ++ ct) := by simp
  have e2 : CURRENT_VERSION :: (salt ++ nonce ++ macTag key nonce ct ++ ct)
      = (CURRENT_VERSION :: (salt ++ nonce)) ++ (macTag key nonce ct ++ ct) := by simp
  have e3 : CURRENT_VERSION :: (salt ++ nonce ++ macTag key nonce ct ++ ct)
      = (CURRENT_VERSION :: (salt ++ nonce ++ macTag key nonce ct)) ++ ct := by simp
  have d17 : (CURRENT_VERSION :: (salt ++ nonce ++ macTag key nonce ct ++ ct)).drop 17
      = nonce ++ macTag key nonce ct ++ ct := by
    rw [e1]; exact List.drop_left' (by simp [hsalt])
  have d41 : (CURRENT_VERSION :: (salt ++ nonce ++ macTag key nonce ct ++ ct)).drop 41
      = macTag key nonce ct ++ ct := by
    rw [e2]; exact List.drop_left' (by simp [hsalt, hnonce])
  have d57 : (CURRENT_VERSION :: (salt ++ nonce ++ macTag key nonce ct ++ ct)).drop 57
      = ct := by
    rw [e3]
    exact List.drop_left' (by simp [hsalt, hnonce, htag, TAG_LENGTH])
  have hblob : (CURRENT_VERSION :: (salt ++ nonce ++ macTag key nonce ct ++ ct)).length
      = 57 + ct.length := by
    simp [hsalt, hnonce, htag, TAG_LENGTH]
    omega
  unfold decrypt
  rw [if_neg (by simp [hkey, ARGON2_KEY_LENGTH])]
  rw [if_neg (by
    simp only [hblob, VERSION_BYTE_LENGTH, SALT_LENGTH, NONCE_LENGTH, TAG_LENGTH]
    omega)]
  unfold decryptTry
  rw [if_neg (by simp [CURRENT_VERSION])]
  simp only [d17, d41, d57]
  have tnonce : (nonce ++ macTag key nonce ct ++ ct).take NONCE_LENGTH = nonce := by
    rw [List.append_assoc]
    exact List.take_left' hnonce
  have ttag : (macTag key nonce ct ++ ct).take TAG_LENGTH = macTag key nonce ct :=
    List.take_left' htag
  rw [tnonce, ttag]
  unfold xchachaDecrypt
  have hctlen : (ct ++ macTag key nonce ct).length - TAG_LENGTH = ct.length := by
    simp [htag]
  rw [hctlen]
  rw [List.take_left, List.drop_left]
  rw [if_pos rfl]

/-! ### Claims about the CryptoEngine -/

/-- C6: For every non-empty plaintext, every 32-byte key, and every 16-byte
salt, `decrypt (encrypt pt key salt) key = pt` (round trip), for every nonce
value encrypt may sample. -/
theorem C6_decrypt_encrypt_roundtrip (pt key salt fresh nonce : List Nat)
    (hpt : pt.length ≠ 0) (hkey : key.length = 32) (hsalt : salt.length = 16)
    (hnonce : nonce.length = 24) :
    (encrypt pt key (some salt) fresh nonce).bind (fun blob => decrypt blob key)
      = .ok pt := by
  rw [encrypt_eq_ok pt key salt fresh nonce hpt hkey hsalt]
  show decrypt _ key = _
  rw [decrypt_layout key salt nonce (xorKs key nonce 0 pt) hkey hsalt hnonce]
  rw [xorKs_xorKs]

theorem C6_witness :
    (encrypt [5, 6] demoKey (some demoSalt) [] demoNonce).bind
      (fun blob => decrypt blob demoKey) = .ok [5, 6] :=
  C6_decrypt_encrypt_roundtrip [5, 6] demoKey demoSalt [] demoNonce (by decide)
    (by decide) (by decide) (by decide)

/-- C7: For every valid input triple, `encrypt` succeeds with a blob of
length exactly `57 + len(plaintext)`, laid out as
`[version:1][salt:16][nonce:24][tag:16][ciphertext:len(plaintext)]`. -/
theorem C7_encrypt_length_layout (pt key salt fresh nonce : List Nat)
    (hpt : pt.length ≠ 0) (hkey : key.length = 32) (hsalt : salt.length = 16)
    (hnonce : nonce.length = 24) :
    ∃ tag ct : List Nat,
      encrypt pt key (some salt) fresh nonce
        = .ok (CURRENT_VERSION :: (salt ++ nonce ++ tag ++ ct)) ∧
      tag.length = 16 ∧ ct.length = pt.length ∧
      (CURRENT_VERSION :: (salt ++ nonce ++ tag ++ ct)).length = 57 + pt.length := by
  refine ⟨macTag key nonce (xorKs key nonce 0 pt), xorKs key nonce 0 pt,
    encrypt_eq_ok pt key salt fresh nonce hpt hkey hsalt, ?_,
    xorKs_length key nonce 0 pt, ?_⟩
  · have h := macTag_length key nonce (xorKs key nonce 0 pt)
    simpa [TAG_LENGTH] using h
  · have h := macTag_length key nonce (xorKs key nonce 0 pt)
    simp [hsalt, hnonce, h, TAG_LENGTH, xorKs_length]
    omega

theorem C7_witness :
    ∃ tag ct : List Nat,
      encrypt [5, 6] demoKey (some demoSalt) [] demoNonce
        = .ok (CURRENT_VERSION :: (demoSalt ++ demoNonce ++ tag ++ ct)) ∧
      tag.length = 16 ∧ ct.length = [5, 6].length ∧
      (CURRENT_VERSION :: (demoSalt ++ demoNonce ++ tag ++ ct)).length
        = 57 + [5, 6].length :=
  C7_encrypt_length_layout [5, 6] demoKey demoSalt [] demoNonce (by decide)
    (by decide) (by decide) (by decide)

/-- C8: Two `encrypt` calls with identical plaintext, key and salt never
produce identical output whenever the two sampled 24-byte nonces differ
(nonce freshness as a two-run statement with the sampled nonce explicit). -/
theorem C8_nonce_freshness (pt key salt fresh n1 n2 : List Nat)
    (hpt : pt.length ≠ 0) (hkey : key.length = 32) (hsalt : salt.length = 16)
    (h1 : n1.length = 24) (h2 : n2.length = 24) (hne : n1 ≠ n2) :
    encrypt pt key (some salt) fresh n1 ≠ encrypt pt key (some salt) fresh n2 := by
  intro h
  rw [encrypt_eq_ok pt key salt fresh n1 hpt hkey hsalt,
      encrypt_eq_ok pt key salt fresh n2 hpt hkey hsalt] at h
  apply hne
  have hl : salt ++ n1 ++ macTag key n1 (xorKs key n1 0 pt) ++ xorKs key n1 0 pt
      = salt ++ n2 ++ macTag key n2 (xorKs key n2 0 pt) ++ xorKs key n2 0 pt := by
    simpa using h
  simp only [List.append_assoc] at hl
  have hl2 := List.append_cancel_left hl
  have htake := congrArg (List.take 24) hl2
  rwa [List.take_left' h1, List.take_left' h2] at htake

theorem C8_witness :
    encrypt [5, 6] demoKey (some demoSalt) [] demoNonce
      ≠ encrypt [5, 6] demoKey (some demoSalt) [] demoNonce2 :=
  C8_nonce_freshness [5, 6] demoKey demoSalt [] demoNonce demoNonce2 (by decide)
    (by decide) (by decide) (by decide) (by decide) (by decide)

/-- C10 (implicit): when `encrypt` is given an explicit salt whose length is
not 16 bytes, it fails with the salt-length validation error
("Salt must be exactly 16 bytes"), and the result does not depend on the
nonce — the failure happens before a nonce is used. -/
theorem C10_encrypt_salt_length_check (pt key salt fresh nonce : List Nat)
    (hkey : key.length = 32) (hpt : pt.length ≠ 0) (hsalt : salt.length ≠ 16) :
    encrypt pt key (some salt) fresh nonce = .error .saltLen ∧
      ∀ nonce2 : List Nat, encrypt pt key (some salt) fresh nonce2
        = encrypt pt key (some salt) fresh nonce := by
  have hmain : ∀ n : List Nat, encrypt pt key (some salt) fresh n = .error .saltLen := by
    intro n
    unfold encrypt
    rw [if_neg (by simp [hkey, ARGON2_KEY_LENGTH]), if_neg (by simp [hpt])]
    simp only [Option.getD_some]
    rw [if_pos (by simp [hsalt, SALT_LENGTH])]
  exact ⟨hmain nonce, fun nonce2 => (hmain nonce2).trans (hmain nonce).symm⟩

theorem C10_witness :
    encrypt [5] demoKey (some [1, 2, 3]) [] demoNonce = .error .saltLen ∧
      ∀ nonce2 : List Nat, encrypt [5] demoKey (some [1, 2, 3]) [] nonce2
        = encrypt [5] demoKey (some [1, 2, 3]) [] demoNonce :=
  C10_encrypt_salt_length_check [5] demoKey [1, 2, 3] [] demoNonce (by decide)
    (by decide) (by decide)

/-- C4 (code bug): on a 57-byte blob whose version byte is 0xff and a
32-byte key, `decrypt` surfaces the single generic
"Decryption failed: invalid key or corrupted data" error — not the distinct
unsupported-version format error the claim (and the repository's own test
suite) expect: the version throw sits inside the `try` block and is
swallowed by the `catch`. -/
theorem C4_bad_version_gives_generic_error :
    decrypt demoBadVersionBlob demoKey0 = .error .decryptionFailed ∧
      decryptTry demoBadVersionBlob demoKey0 = .error (.unsupportedVersion 255) ∧
      JsError.decryptionFailed ≠ .unsupportedVersion 255 := by
  refine ⟨rfl, rfl, by decide⟩

/-- C5 counterexample: a 17-byte blob with a valid version byte is shorter
than 57 bytes, yet `extractSalt` succeeds on it — refuting "extractSalt
rejects every blob shorter than 57 bytes". -/
theorem C5_counterexample :
    demoShortBlob.length < 57 ∧ extractSalt demoShortBlob = .ok (List.replicate 16 7) := by
  exact ⟨by decide, rfl⟩

/-- C5 (amended): `extractSalt` fails exactly when the blob is shorter than
17 bytes (its own minimum, version byte plus salt) or its version byte is
not 0x01; on every blob of length at least 17 — in particular every blob of
length at least 57 — with version byte 0x01 it succeeds, returning the 16
bytes at offsets 1..16, without needing the key. -/
theorem C5_extractSalt_characterization (blob : List Nat) :
    extractSalt blob =
      if blob.length < 17 then .error .extractTooShort
      else if blob.headD 0 = CURRENT_VERSION then .ok ((blob.drop 1).take 16)
      else .error (.extractUnsupportedVersion (blob.headD 0)) := by
  unfold extractSalt
  simp only [VERSION_BYTE_LENGTH, SALT_LENGTH, CURRENT_VERSION]
  by_cases h17 : blob.length < 17
  · simp [h17]
  · by_cases hv : blob.headD 0 = 1
    · simp [h17, hv]
    · simp [h17, hv]

/-! ### Claims about the VaultManager -/

/-- C1 (code bug): `create` with an omitted or empty `initialData` does not
succeed with a 57-byte blob: the zero-length payload reaches `encrypt`,
whose empty-plaintext guard throws "Plaintext cannot be empty" — the
repository's own test "should create vault with empty data if not provided"
and the spec's scenario `create("correct-password-1", bytes(0)) → length 57`
both expect success. -/
theorem C1_create_empty_payload_throws :
    (create initialVault "correct-password-1" none demoSalt demoNonce).1
      = .error .plaintextEmpty ∧
    (create initialVault "correct-password-1" (some []) demoSalt demoNonce).1
      = .error .plaintextEmpty :=
  ⟨rfl, rfl⟩

/-- C9 (code bug): the failing `create` call of C1 leaves the session with
both the derived key and the salt resident while `isLocked` is still true:
`isUnlocked()` reports false, yet `getSalt()` returns the salt — key
material is resident in a session that reports locked, violating the
claimed invariant. -/
theorem C9_key_material_resident_while_locked :
    (create initialVault "correct-password-1" none demoSalt demoNonce).1
      = .error .plaintextEmpty ∧
    (create initialVault "correct-password-1" none demoSalt demoNonce).2.derivedKey.isSome
      = true ∧
    (create initialVault "correct-password-1" none demoSalt demoNonce).2.isLocked = true ∧
    isUnlocked (create initialVault "correct-password-1" none demoSalt demoNonce).2
      = false ∧
    getSalt (create initialVault "correct-password-1" none demoSalt demoNonce).2
      = some demoSalt :=
  ⟨rfl, rfl, rfl, rfl, rfl⟩

/-- C2 counterexample: from an unlocked session (reached by a successful
`create`), a failing `unlock` call with a too-short password surfaces the
specific "Password must be at least 8 characters long" error — not the
single generic message — and leaves the session unlocked, with key material
still resident. -/
theorem C2_counterexample :
    isUnlocked (create initialVault "password-123" (some [9]) demoSalt demoNonce).2
      = true ∧
    (unlock (create initialVault "password-123" (some [9]) demoSalt demoNonce).2
        demoBlob57 "short").1 = .error .passwordTooShort ∧
    (unlock (create initialVault "password-123" (some [9]) demoSalt demoNonce).2
        demoBlob57 "short").2
      = (create initialVault "password-123" (some [9]) demoSalt demoNonce).2 ∧
    isUnlocked (unlock (create initialVault "password-123" (some [9]) demoSalt demoNonce).2
        demoBlob57 "short").2 = true :=
  ⟨rfl, rfl, rfl, rfl⟩

/-- C2 (amended): every failure of `unlock` is either a precondition
validation failure (empty or too-short password, empty or too-short vault
data) that surfaces a specific validation error and leaves the session state
unchanged, or a failure of the cryptographic phase (salt extraction, key
derivation, decryption), which surfaces only the single generic unlock
error and leaves the session fully locked, with no key material resident. -/
theorem C2_unlock_failure_modes (st : VaultState) (vault : List Nat) (password : String)
    (e : JsError) (h : (unlock st vault password).1 = .error e) :
    ((e = .passwordEmpty ∨ e = .passwordTooShort ∨ e = .vaultEmpty ∨ e = .vaultTooShort) ∧
      (unlock st vault password).2 = st) ∨
    (e = .unlockFailed ∧ (unlock st vault password).2 = ⟨none, none, true⟩) := by
  cases hv : validatePassword password with
  | some err =>
    have hres : unlock st vault password = (.error err, st) := by
      simp only [unlock, hv]
    rw [hres] at h
    have he : err = e := by simpa using h
    subst he
    left
    refine ⟨?_, by simp [hres]⟩
    unfold validatePassword at hv
    split_ifs at hv with h1 h2 <;> simp_all
  | none =>
    cases hd : validateVaultData vault with
    | some err =>
      have hres : unlock st vault password = (.error err, st) := by
        simp only [unlock, hv, hd]
      rw [hres] at h
      have he : err = e := by simpa using h
      subst he
      left
      refine ⟨?_, by simp [hres]⟩
      unfold validateVaultData at hd
      split_ifs at hd with h1 h2 <;> simp_all
    | none =>
      cases hx : extractSalt vault with
      | error e2 =>
        have hres : unlock st vault password = (.error .unlockFailed, ⟨none, none, true⟩) := by
          simp only [unlock, hv, hd, hx, lockOp]
        rw [hres] at h
        right
        have h2 : JsError.unlockFailed = e := by simpa using h
        exact ⟨h2.symm, by simp [hres]⟩
      | ok s =>
        cases hk : deriveKey password s with
        | error e2 =>
          have hres : unlock st vault password = (.error .unlockFailed, ⟨none, none, true⟩) := by
            simp only [unlock, hv, hd, hx, hk, lockOp]
          rw [hres] at h
          right
          have h2 : JsError.unlockFailed = e := by simpa using h
          exact ⟨h2.symm, by simp [hres]⟩
        | ok key =>
          cases hdc : decrypt vault key with
          | error e2 =>
            have hres : unlock st vault password = (.error .unlockFailed, ⟨none, none, true⟩) := by
              simp only [unlock, hv, hd, hx, hk, hdc, lockOp]
            rw [hres] at h
            right
            have h2 : JsError.unlockFailed = e := by simpa using h
            exact ⟨h2.symm, by simp [hres]⟩
          | ok ptx =>
            have hres : unlock st vault password
                = (.ok ptx, ⟨some key, some s, false⟩) := by
              simp only [unlock, hv, hd, hx, hk, hdc]
            rw [hres] at h
            simp at h

theorem C2_witness :
    ((JsError.vaultEmpty = .passwordEmpty ∨ JsError.vaultEmpty = .passwordTooShort ∨
        JsError.vaultEmpty = .vaultEmpty ∨ JsError.vaultEmpty = .vaultTooShort) ∧
      (unlock initialVault [] "password-123").2 = initialVault) ∨
    (JsError.vaultEmpty = .unlockFailed ∧
      (unlock initialVault [] "password-123").2 = ⟨none, none, true⟩) :=
  C2_unlock_failure_modes initialVault [] "password-123" .vaultEmpty rfl

/-! ### Claim about the S3Client retry policy -/

/-- C3 (code bug): a persistently failing transient network error is
attempted exactly once by `upload` — not `maxRetries + 1` times — because
`upload` passes `shouldRetry = false` to `retryOperation`, disabling all
retries (its call-site comment says only 412 should not be retried).
`download`, by contrast, does attempt the same persistent transient error
`maxRetries + 1 = 4` times with the exponential backoff delays
`retryDelay * 2^attempt`. -/
theorem C3_upload_never_retries_transient :
    uploadRetry (fun _ => (.error networkError : Except S3ClientError String)) 1000 3
      = (.error networkError, 1, []) ∧
    downloadRetry (fun _ => (.error networkError : Except S3ClientError String)) 1000 3
      = (.error networkError, 4, [1000, 2000, 4000]) :=
  ⟨rfl, rfl⟩

end PasswordManager
